import Mathlib

/-!
Shallow embedding of the unitycatalog-rs client library.

Layers modelled from the source:
- `src/errors.rs` : the `UCRSError` taxonomy (`UCRSError`, `UCRSResult`).
- `src/request.rs` : the transport layer `RequestClient::request`.  The
  underlying reqwest behaviour that `request` relies on is embedded as follows:
  an HTTP exchange outcome is a value of `HttpOutcome` (either `send()` failed,
  or a response with a status, a body-text read outcome and a JSON-decode
  outcome arrived); `Response::error_for_status_ref` errors exactly on client
  and server error statuses (400..=599) and the `reqwest::Error` it produces is
  the only kind whose `.status()` is `some`; errors produced by `send()`,
  `.text()` and `.json()` have `.status() = none`.
- `src/oss/api/catalogs.rs`, `src/oss/api/schemas.rs`, `src/oss/api/tables.rs` :
  the three resource clients (namespaces `CatalogsClient`, `SchemasClient`,
  `TablesClient`).
- `src/clients/catalogs.rs` : the older catalogs client
  (namespace `Clients.CatalogsClient`), whose `create` contains
  `resinner.status().unwrap()`; a Rust panic is modelled by `Option.none` on
  the result.

Serialization of a request body by `serde_json::to_string` is passed in as an
`Except SerdeJsonError String` argument (the client code treats it opaquely and
only branches on success/failure).  `Url::join` against the fixed absolute API
paths used by the clients cannot fail for an http(s) base URL, so the
`MalformedURL` early return is not reachable on the modelled paths; routes are
modelled as a path string plus the list of query pairs appended by
`query_pairs_mut().append_pair`.
-/

/-- Model of `serde_json::Error` (opaque to the client code). -/
structure SerdeJsonError where
  msg : String
deriving DecidableEq, Repr

/-- Model of `reqwest::Error`: the client code observes nothing of it except
`Error::status()`, which is `some` exactly for errors produced by
`error_for_status_ref`. -/
structure ReqwestError where
  msg : String
  status : Option Nat
deriving DecidableEq, Repr

/-- The error taxonomy of `src/errors.rs` (`enum UCRSError`). -/
inductive UCRSError where
  | MalformedURL (msg : String)
  | ClientBuildError (e : ReqwestError)
  | JSONFormattingError (e : SerdeJsonError)
  | RequestError (e : ReqwestError)
  | RequestErrorWithResponse (e : ReqwestError) (body : String)
  | JSONParsingError (e : ReqwestError)
  | DuplicateCatalogName (name : String)
  | DuplicateSchemaName (name : String)
  | DuplicateTableName (name : String)
  | CatalogNotFound (name : String)
  | SchemaNotFound (name : String)
  | TableNotFound (name : String)
deriving DecidableEq, Repr

/-- `pub type UCRSResult<T> = Result<T, UCRSError>` from `src/errors.rs`. -/
abbrev UCRSResult (T : Type) := Except UCRSError T

/-- `CatalogInfo` from `src/oss/api/catalogs.rs` (`HashMap<String, String>` is
modelled as an association list). -/
structure CatalogInfo where
  name : Option String
  comment : Option String
  properties : Option (List (String × String))
  created_at : Option Int
  updated_at : Option Int
  id : Option String
deriving DecidableEq, Repr

/-- `ListCatalogResponse` from `src/oss/api/catalogs.rs`. -/
structure ListCatalogResponse where
  catalogs : List CatalogInfo
  next_page_token : Option String
deriving DecidableEq, Repr

/-- `CreateCatalog` from `src/oss/api/catalogs.rs`. -/
structure CreateCatalog where
  name : String
  comment : Option String
  properties : Option (List (String × String))
deriving DecidableEq, Repr

/-- `UpdateCatalog` from `src/oss/api/catalogs.rs`. -/
structure UpdateCatalog where
  new_name : Option String
  properties : Option (List (String × String))
  comment : Option String
deriving DecidableEq, Repr

/-- `SchemaInfo` from `src/oss/api/schemas.rs`. -/
structure SchemaInfo where
  name : Option String
  catalog_name : Option String
  comment : Option String
  properties : Option (List (String × String))
  full_name : Option String
  created_at : Option Int
  updated_at : Option Int
  schema_id : Option String
deriving DecidableEq, Repr

/-- `ListSchemasResponse` from `src/oss/api/schemas.rs`. -/
structure ListSchemasResponse where
  schemas : List SchemaInfo
  next_page_token : Option String
deriving DecidableEq, Repr

/-- `CreateSchema` from `src/oss/api/schemas.rs`. -/
structure CreateSchema where
  name : String
  catalog_name : String
  comment : Option String
  properties : Option (List (String × String))
deriving DecidableEq, Repr

/-- `UpdateSchema` from `src/oss/api/schemas.rs`. -/
structure UpdateSchema where
  name : String
  new_name : Option String
  properties : Option (List (String × String))
  comment : Option String
deriving DecidableEq, Repr

/-- `TableType` from `src/oss/api/tables.rs`. -/
inductive TableType where
  | MANAGED
  | EXTERNAL
deriving DecidableEq, Repr

/-- `DataSourceFormat` from `src/oss/api/tables.rs`. -/
inductive DataSourceFormat where
  | DELTA
  | CSV
  | JSON
  | AVRO
  | PARQUET
  | ORC
  | TEXT
deriving DecidableEq, Repr

/-- `ColumnTypeName` from `src/oss/api/tables.rs`. -/
inductive ColumnTypeName where
  | BOOLEAN
  | BYTE
  | SHORT
  | INT
  | LONG
  | FLOAT
  | DOUBLE
  | DATE
  | TIMESTAMP
  | TIMESTAMP_NTZ
  | STRING
  | BINARY
  | DECIMAL
  | INTERVAL
  | ARRAY
  | STRUCT
  | MAP
  | CHAR
  | NULL
  | USER_DEFINED_TYPE
  | TABLE_TYPE
deriving DecidableEq, Repr

/-- `ColumnInfo` from `src/oss/api/tables.rs`. -/
structure ColumnInfo where
  name : Option String
  type_text : Option String
  type_json : Option String
  type_name : Option ColumnTypeName
  type_precision : Option Int
  type_scale : Option Int
  type_interval_type : Option String
  position : Option Nat
  comment : Option String
  nullable : Option Bool
  partition_index : Option Int
deriving DecidableEq, Repr

/-- `TableInfo` from `src/oss/api/tables.rs`. -/
structure TableInfo where
  name : Option String
  catalog_name : Option String
  schema_name : Option String
  table_type : Option TableType
  data_source_format : Option DataSourceFormat
  columns : Option (List ColumnInfo)
  storage_location : Option String
  comment : Option String
  properties : Option (List (String × String))
  created_at : Option Int
  updated_at : Option Int
  table_id : Option String
deriving DecidableEq, Repr

/-- `ListTablesResponse` from `src/oss/api/tables.rs`. -/
structure ListTablesResponse where
  tables : List TableInfo
  next_page_token : Option String
deriving DecidableEq, Repr

/-- `CreateTable` from `src/oss/api/tables.rs`. -/
structure CreateTable where
  name : String
  catalog_name : String
  schema_name : String
  table_type : TableType
  data_source_format : DataSourceFormat
  columns : List ColumnInfo
  storage_location : Option String
  comment : Option String
  properties : Option (List (String × String))
deriving DecidableEq, Repr

/-- A URL as the clients build it: a path (produced by `Url::join` against the
base URL) together with the query pairs appended by
`query_pairs_mut().append_pair`, in order of appending. -/
structure Route where
  path : String
  query : List (String × String)
deriving DecidableEq, Repr

/-- The outgoing HTTP request as assembled by `RequestClient::request` right
before `send()`: method, route, serialized body (if any) and the headers set
by `.header(...)` calls. -/
structure Outgoing where
  method : String
  route : Route
  body : Option String
  headers : List (String × String)
deriving DecidableEq, Repr

/-- The outcome of the HTTP exchange performed inside `RequestClient::request`,
as the surrounding code observes it:
- `sendErr msg` : `request.send()` returned `Err` (connection refused, timeout,
  TLS failure ...); such a `reqwest::Error` has `.status() = none`.
- `resp status textRes jsonRes` : a response with the given status arrived;
  `textRes` is the outcome the code would see from `response.text()` and
  `jsonRes` the outcome it would see from `response.json::<R>()` (each consumed
  at most once, on the branch the code actually takes).  Errors from `.text()`
  and `.json()` are reqwest decode errors, whose `.status()` is `none`. -/
inductive HttpOutcome (R : Type) where
  | sendErr (msg : String)
  | resp (status : Nat) (textRes : Except String String) (jsonRes : Except String R)

/-- The `reqwest::Error` produced by `Response::error_for_status_ref` on a
status in 400..=599: the one error kind whose `.status()` is `some`. -/
def statusError (status : Nat) : ReqwestError :=
  { msg := "HTTP status error", status := some status }

namespace RequestClient

/-- The response-classification tail of `RequestClient::request`
(`src/request.rs` lines 111-122): a `send()` failure becomes `RequestError`;
a response whose status makes `error_for_status_ref` fail (client/server
error, 400..=599) has its body read as text — a text-read failure becomes
`RequestError`, otherwise the result is `RequestErrorWithResponse` with the
status error and the body text; any other status proceeds to JSON decoding —
a decode failure becomes `JSONParsingError`, success yields the value. -/
def classifyResponse (R : Type) (http : HttpOutcome R) : UCRSResult R :=
  match http with
  | .sendErr msg => .error (.RequestError { msg := msg, status := none })
  | .resp status textRes jsonRes =>
    if 400 ≤ status ∧ status ≤ 599 then
      match textRes with
      | .error m => .error (.RequestError { msg := m, status := none })
      | .ok b => .error (.RequestErrorWithResponse (statusError status) b)
    else
      match jsonRes with
      | .error m => .error (.JSONParsingError { msg := m, status := none })
      | .ok r => .ok r

/-- `RequestClient::request` (`src/request.rs` lines 87-123).  `body` is
`body.map(serde_json::to_string)`: `none` when no body was supplied, otherwise
the serialization outcome.  The first component records the outgoing request
handed to `send()` (`none` when the function returns before any network I/O);
the second is the returned `UCRSResult`. -/
def request (R : Type) (method : String) (route : Route)
    (body : Option (Except SerdeJsonError String)) (http : HttpOutcome R) :
    Option Outgoing × UCRSResult R :=
  match body with
  | some (.error e) => (none, .error (.JSONFormattingError e))
  | some (.ok b) =>
    (some { method := method, route := route, body := some b,
            headers := [("Content-Type", "application/json"),
                        ("Accept", "application/json")] },
     classifyResponse R http)
  | none =>
    (some { method := method, route := route, body := none, headers := [] },
     classifyResponse R http)

/-- `RequestClient::get`: `request` with `Method::GET`. -/
def get (R : Type) (route : Route) (body : Option (Except SerdeJsonError String))
    (http : HttpOutcome R) : Option Outgoing × UCRSResult R :=
  request R "GET" route body http

/-- `RequestClient::post`: `request` with `Method::POST`. -/
def post (R : Type) (route : Route) (body : Option (Except SerdeJsonError String))
    (http : HttpOutcome R) : Option Outgoing × UCRSResult R :=
  request R "POST" route body http

/-- `RequestClient::delete`: `request` with `Method::DELETE`. -/
def delete (R : Type) (route : Route) (body : Option (Except SerdeJsonError String))
    (http : HttpOutcome R) : Option Outgoing × UCRSResult R :=
  request R "DELETE" route body http

/-- `RequestClient::patch`: `request` with `Method::PATCH`. -/
def patch (R : Type) (route : Route) (body : Option (Except SerdeJsonError String))
    (http : HttpOutcome R) : Option Outgoing × UCRSResult R :=
  request R "PATCH" route body http

end RequestClient

/-- `true` exactly when the result is one of the three duplicate-name domain
errors of `src/errors.rs`. -/
def resultIsDuplicate {R : Type} : UCRSResult R → Bool
  | .error (.DuplicateCatalogName _) => true
  | .error (.DuplicateSchemaName _) => true
  | .error (.DuplicateTableName _) => true
  | _ => false

/-- `true` exactly when the result is one of the three not-found domain errors
of `src/errors.rs`. -/
def resultIsNotFound {R : Type} : UCRSResult R → Bool
  | .error (.CatalogNotFound _) => true
  | .error (.SchemaNotFound _) => true
  | .error (.TableNotFound _) => true
  | _ => false

/-- `true` exactly when the result is a `RequestErrorWithResponse`. -/
def resultIsRequestErrorWithResponse {R : Type} : UCRSResult R → Bool
  | .error (.RequestErrorWithResponse _ _) => true
  | _ => false

namespace CatalogsClient

/-- The catalogs collection path `/api/2.1/unity-catalog/catalogs`. -/
def collectionPath : String := "/api/2.1/unity-catalog/catalogs"

/-- The URL built by `CatalogsClient::list` (`src/oss/api/catalogs.rs` lines
17-25): the collection path, then `page_token` appended only when supplied,
then `max_results` (via `i32::to_string`) only when supplied. -/
def listRoute (page_token : Option String) (max_results : Option Int) : Route :=
  { path := collectionPath,
    query :=
      (match page_token with
       | some token => [("page_token", token)]
       | none => []) ++
      (match max_results with
       | some m => [("max_results", toString m)]
       | none => []) }

/-- `CatalogsClient::list`: a GET of the list route with no body. -/
def list (page_token : Option String) (max_results : Option Int)
    (http : HttpOutcome ListCatalogResponse) : UCRSResult ListCatalogResponse :=
  (RequestClient.get ListCatalogResponse (listRoute page_token max_results) none http).2

/-- The error remap applied by `CatalogsClient::create` to the transport result
(`src/oss/api/catalogs.rs` lines 34-41): a `RequestError` whose `.status()` is
`Some(CONFLICT)` becomes `DuplicateCatalogName(props.name)`; everything else is
returned unchanged. -/
def createHandle (props : CreateCatalog) (res : UCRSResult CatalogInfo) :
    UCRSResult CatalogInfo :=
  match res with
  | .error (.RequestError inner) =>
    match inner.status with
    | some 409 => .error (.DuplicateCatalogName props.name)
    | _ => res
  | _ => res

/-- `CatalogsClient::create`: POST the serialized props to the collection URL,
then apply the 409 remap.  `ser` is the `serde_json::to_string(&props)`
outcome. -/
def create (props : CreateCatalog) (ser : Except SerdeJsonError String)
    (http : HttpOutcome CatalogInfo) : UCRSResult CatalogInfo :=
  createHandle props
    (RequestClient.post CatalogInfo { path := collectionPath, query := [] } (some ser) http).2

/-- The path built by `format!` for a single catalog. -/
def itemPath (name : String) : String := collectionPath ++ "/" ++ name

/-- The error remap applied by `CatalogsClient::get` / `delete` / `update`:
a `RequestError` whose `.status()` is `Some(NOT_FOUND)` becomes
`CatalogNotFound(name)`; everything else is returned unchanged. -/
def notFoundHandle (R : Type) (name : String) (res : UCRSResult R) : UCRSResult R :=
  match res with
  | .error (.RequestError inner) =>
    match inner.status with
    | some 404 => .error (.CatalogNotFound name)
    | _ => res
  | _ => res

/-- `CatalogsClient::get` (`src/oss/api/catalogs.rs` lines 44-57). -/
def get (name : String) (http : HttpOutcome CatalogInfo) : UCRSResult CatalogInfo :=
  notFoundHandle CatalogInfo name
    (RequestClient.get CatalogInfo { path := itemPath name, query := [] } none http).2

/-- The error handling of `CatalogsClient::delete` (`src/oss/api/catalogs.rs`
lines 63-76): first the 404 remap on a `RequestError`; otherwise a
`JSONParsingError` becomes `Ok(())` (the DELETE-returns-bare-`200 OK` quirk);
everything else is returned unchanged. -/
def deleteHandle (name : String) (res : UCRSResult Unit) : UCRSResult Unit :=
  match res with
  | .error (.RequestError inner) =>
    match inner.status with
    | some 404 => .error (.CatalogNotFound name)
    | _ => res
  | .error (.JSONParsingError _) => .ok ()
  | _ => res

/-- `CatalogsClient::delete`: DELETE the item URL with `force` appended as a
query pair (`bool::to_string`), then apply `deleteHandle`. -/
def delete (name : String) (force : Bool) (http : HttpOutcome Unit) : UCRSResult Unit :=
  deleteHandle name
    (RequestClient.delete Unit
      { path := itemPath name, query := [("force", toString force)] } none http).2

/-- `CatalogsClient::update`: PATCH the serialized update props to the item
URL, then apply the 404 remap. -/
def update (name : String) (update_props : UpdateCatalog)
    (ser : Except SerdeJsonError String) (http : HttpOutcome CatalogInfo) :
    UCRSResult CatalogInfo :=
  notFoundHandle CatalogInfo name
    (RequestClient.patch CatalogInfo { path := itemPath name, query := [] } (some ser) http).2

end CatalogsClient

namespace SchemasClient

/-- `SchemasClient::full_name` (`src/oss/api/schemas.rs` lines 17-19):
`format!("{}.{}", catalog_name, name)`. -/
def full_name (catalog_name : String) (name : String) : String :=
  catalog_name ++ "." ++ name

/-- The schemas collection path `/api/2.1/unity-catalog/schemas`. -/
def collectionPath : String := "/api/2.1/unity-catalog/schemas"

/-- The URL built by `SchemasClient::list` (`src/oss/api/schemas.rs` lines
21-43): `catalog_name` is always appended first, then `page_token` and
`max_results` only when supplied. -/
def listRoute (catalog_name : String) (page_token : Option String)
    (max_results : Option Int) : Route :=
  { path := collectionPath,
    query :=
      ("catalog_name", catalog_name) ::
      ((match page_token with
        | some token => [("page_token", token)]
        | none => []) ++
       (match max_results with
        | some m => [("max_results", toString m)]
        | none => [])) }

/-- `SchemasClient::list`: a GET of the list route with no body. -/
def list (catalog_name : String) (page_token : Option String) (max_results : Option Int)
    (http : HttpOutcome ListSchemasResponse) : UCRSResult ListSchemasResponse :=
  (RequestClient.get ListSchemasResponse (listRoute catalog_name page_token max_results)
    none http).2

/-- The error remap applied by `SchemasClient::create` (`src/oss/api/schemas.rs`
lines 52-62): a `RequestError` whose `.status()` is `Some(CONFLICT)` becomes
`DuplicateSchemaName(full_name(catalog_name, name))`. -/
def createHandle (props : CreateSchema) (res : UCRSResult SchemaInfo) :
    UCRSResult SchemaInfo :=
  match res with
  | .error (.RequestError inner) =>
    match inner.status with
    | some 409 => .error (.DuplicateSchemaName (full_name props.catalog_name props.name))
    | _ => res
  | _ => res

/-- `SchemasClient::create`: POST the serialized props, then the 409 remap. -/
def create (props : CreateSchema) (ser : Except SerdeJsonError String)
    (http : HttpOutcome SchemaInfo) : UCRSResult SchemaInfo :=
  createHandle props
    (RequestClient.post SchemaInfo { path := collectionPath, query := [] } (some ser) http).2

/-- The path built by `format!` for a single schema. -/
def itemPath (fullName : String) : String := collectionPath ++ "/" ++ fullName

/-- The 404 remap of `SchemasClient::get` / `delete` / `update`. -/
def notFoundHandle (R : Type) (fullName : String) (res : UCRSResult R) : UCRSResult R :=
  match res with
  | .error (.RequestError inner) =>
    match inner.status with
    | some 404 => .error (.SchemaNotFound fullName)
    | _ => res
  | _ => res

/-- `SchemasClient::get` (`src/oss/api/schemas.rs` lines 65-80). -/
def get (fullName : String) (http : HttpOutcome SchemaInfo) : UCRSResult SchemaInfo :=
  notFoundHandle SchemaInfo fullName
    (RequestClient.get SchemaInfo { path := itemPath fullName, query := [] } none http).2

/-- The error handling of `SchemasClient::delete` (`src/oss/api/schemas.rs`
lines 90-101): the 404 remap, then `JSONParsingError` becomes `Ok(())`. -/
def deleteHandle (fullName : String) (res : UCRSResult Unit) : UCRSResult Unit :=
  match res with
  | .error (.RequestError inner) =>
    match inner.status with
    | some 404 => .error (.SchemaNotFound fullName)
    | _ => res
  | .error (.JSONParsingError _) => .ok ()
  | _ => res

/-- `SchemasClient::delete`: DELETE the item URL with `force` appended. -/
def delete (fullName : String) (force : Bool) (http : HttpOutcome Unit) : UCRSResult Unit :=
  deleteHandle fullName
    (RequestClient.delete Unit
      { path := itemPath fullName, query := [("force", toString force)] } none http).2

/-- `SchemasClient::update`: PATCH the serialized update props, then the 404
remap. -/
def update (fullName : String) (update_props : UpdateSchema)
    (ser : Except SerdeJsonError String) (http : HttpOutcome SchemaInfo) :
    UCRSResult SchemaInfo :=
  notFoundHandle SchemaInfo fullName
    (RequestClient.patch SchemaInfo { path := itemPath fullName, query := [] } (some ser) http).2

end SchemasClient

namespace TablesClient

/-- `TablesClient::full_name` (`src/oss/api/tables.rs` lines 17-19):
`format!("{}.{}.{}", catalog_name, schema_name, name)`. -/
def full_name (catalog_name : String) (schema_name : String) (name : String) : String :=
  catalog_name ++ "." ++ schema_name ++ "." ++ name

/-- The tables collection path `/api/2.1/unity-catalog/tables`. -/
def collectionPath : String := "/api/2.1/unity-catalog/tables"

/-- The URL built by `TablesClient::list` (`src/oss/api/tables.rs` lines
21-34): `catalog_name` and `schema_name` are always appended first, then
`page_token` and `max_results` only when supplied. -/
def listRoute (catalog_name : String) (schema_name : String)
    (page_token : Option String) (max_results : Option Int) : Route :=
  { path := collectionPath,
    query :=
      ("catalog_name", catalog_name) :: ("schema_name", schema_name) ::
      ((match page_token with
        | some token => [("page_token", token)]
        | none => []) ++
       (match max_results with
        | some m => [("max_results", toString m)]
        | none => [])) }

/-- `TablesClient::list`: a GET of the list route with no body. -/
def list (catalog_name : String) (schema_name : String) (page_token : Option String)
    (max_results : Option Int) (http : HttpOutcome ListTablesResponse) :
    UCRSResult ListTablesResponse :=
  (RequestClient.get ListTablesResponse
    (listRoute catalog_name schema_name page_token max_results) none http).2

/-- The error remap applied by `TablesClient::create` (`src/oss/api/tables.rs`
lines 40-48): a `RequestError` whose `.status()` is `Some(CONFLICT)` becomes
`DuplicateTableName(props.name)` — note: the bare table name, not the dotted
full name. -/
def createHandle (props : CreateTable) (res : UCRSResult TableInfo) :
    UCRSResult TableInfo :=
  match res with
  | .error (.RequestError inner) =>
    match inner.status with
    | some 409 => .error (.DuplicateTableName props.name)
    | _ => res
  | _ => res

/-- `TablesClient::create`: POST the serialized props, then the 409 remap. -/
def create (props : CreateTable) (ser : Except SerdeJsonError String)
    (http : HttpOutcome TableInfo) : UCRSResult TableInfo :=
  createHandle props
    (RequestClient.post TableInfo { path := collectionPath, query := [] } (some ser) http).2

/-- The path built by `format!` for a single table. -/
def itemPath (fullName : String) : String := collectionPath ++ "/" ++ fullName

/-- The 404 remap of `TablesClient::get` / `delete`. -/
def notFoundHandle (R : Type) (fullName : String) (res : UCRSResult R) : UCRSResult R :=
  match res with
  | .error (.RequestError inner) =>
    match inner.status with
    | some 404 => .error (.TableNotFound fullName)
    | _ => res
  | _ => res

/-- `TablesClient::get` (`src/oss/api/tables.rs` lines 51-64). -/
def get (fullName : String) (http : HttpOutcome TableInfo) : UCRSResult TableInfo :=
  notFoundHandle TableInfo fullName
    (RequestClient.get TableInfo { path := itemPath fullName, query := [] } none http).2

/-- The error handling of `TablesClient::delete` (`src/oss/api/tables.rs` lines
69-82): the 404 remap, then `JSONParsingError` becomes `Ok(())`. -/
def deleteHandle (fullName : String) (res : UCRSResult Unit) : UCRSResult Unit :=
  match res with
  | .error (.RequestError inner) =>
    match inner.status with
    | some 404 => .error (.TableNotFound fullName)
    | _ => res
  | .error (.JSONParsingError _) => .ok ()
  | _ => res

/-- `TablesClient::delete`: DELETE the item URL (tables have no `force`
parameter), then apply `deleteHandle`. -/
def delete (fullName : String) (http : HttpOutcome Unit) : UCRSResult Unit :=
  deleteHandle fullName
    (RequestClient.delete Unit { path := itemPath fullName, query := [] } none http).2

end TablesClient

namespace Clients.CatalogsClient

/-- `CatalogsClient::create` from `src/clients/catalogs.rs` (lines 28-46).
The body `CreateCatalog { name, comment, properties }` is built from the
arguments and serialized (`ser` is the serialization outcome).  On
`Err(RequestError(resinner))` the code evaluates `resinner.status().unwrap()`:
when the reqwest error carries no status this `unwrap` panics, modelled here
as `none`; a normal return `r` is modelled as `some r`. -/
def create (name : String) (comment : Option String)
    (properties : Option (List (String × String)))
    (ser : Except SerdeJsonError String) (http : HttpOutcome CatalogInfo) :
    Option (UCRSResult CatalogInfo) :=
  let body : CreateCatalog :=
    { name := name, comment := comment, properties := properties }
  let res :=
    (RequestClient.post CatalogInfo
      { path := CatalogsClient.collectionPath, query := [] } (some ser) http).2
  match res with
  | .error (.RequestError inner) =>
    match inner.status with
    | none => none
    | some s =>
      if s = 409 then some (.error (.DuplicateCatalogName body.name)) else some res
  | _ => some res

end Clients.CatalogsClient

/-- The result component of `request` with a successfully serialized body is
the response classification. -/
theorem RequestClient.request_snd_ok (R : Type) (method : String) (route : Route)
    (b : String) (http : HttpOutcome R) :
    (RequestClient.request R method route (some (.ok b)) http).2 =
      RequestClient.classifyResponse R http := rfl

/-- The result component of `request` with no body is the response
classification. -/
theorem RequestClient.request_snd_none (R : Type) (method : String) (route : Route)
    (http : HttpOutcome R) :
    (RequestClient.request R method route none http).2 =
      RequestClient.classifyResponse R http := rfl

/-- Every value `classifyResponse` can produce has one of four shapes: a
`RequestError` with no status, a `RequestErrorWithResponse` built from a
status error, a `JSONParsingError` with no status, or a success. -/
theorem classifyResponse_shapes (R : Type) (http : HttpOutcome R) :
    (∃ m, RequestClient.classifyResponse R http =
        .error (.RequestError { msg := m, status := none })) ∨
    (∃ s b, RequestClient.classifyResponse R http =
        .error (.RequestErrorWithResponse (statusError s) b)) ∨
    (∃ m, RequestClient.classifyResponse R http =
        .error (.JSONParsingError { msg := m, status := none })) ∨
    (∃ r, RequestClient.classifyResponse R http = .ok r) := by
  cases http with
  | sendErr m => exact Or.inl ⟨m, rfl⟩
  | resp s tR jR =>
    by_cases h : 400 ≤ s ∧ s ≤ 599
    · cases tR with
      | error m =>
        refine Or.inl ⟨m, ?_⟩
        simp only [RequestClient.classifyResponse, if_pos h]
      | ok b =>
        refine Or.inr (Or.inl ⟨s, b, ?_⟩)
        simp only [RequestClient.classifyResponse, if_pos h]
    · cases jR with
      | error m =>
        refine Or.inr (Or.inr (Or.inl ⟨m, ?_⟩))
        simp only [RequestClient.classifyResponse, if_neg h]
      | ok r =>
        refine Or.inr (Or.inr (Or.inr ⟨r, ?_⟩))
        simp only [RequestClient.classifyResponse, if_neg h]

/-- The 409 remap of `CatalogsClient::create` leaves every transport-produced
result unchanged, because a `RequestError` coming out of
`RequestClient::request` never carries a status. -/
theorem catalogsCreateHandle_classify (props : CreateCatalog)
    (http : HttpOutcome CatalogInfo) :
    CatalogsClient.createHandle props (RequestClient.classifyResponse CatalogInfo http) =
      RequestClient.classifyResponse CatalogInfo http := by
  rcases classifyResponse_shapes CatalogInfo http with ⟨m, h⟩ | ⟨s, b, h⟩ | ⟨m, h⟩ | ⟨r, h⟩ <;>
    rw [h] <;> rfl

/-- Same transparency fact for `SchemasClient::create`. -/
theorem schemasCreateHandle_classify (props : CreateSchema)
    (http : HttpOutcome SchemaInfo) :
    SchemasClient.createHandle props (RequestClient.classifyResponse SchemaInfo http) =
      RequestClient.classifyResponse SchemaInfo http := by
  rcases classifyResponse_shapes SchemaInfo http with ⟨m, h⟩ | ⟨s, b, h⟩ | ⟨m, h⟩ | ⟨r, h⟩ <;>
    rw [h] <;> rfl

/-- Same transparency fact for `TablesClient::create`. -/
theorem tablesCreateHandle_classify (props : CreateTable)
    (http : HttpOutcome TableInfo) :
    TablesClient.createHandle props (RequestClient.classifyResponse TableInfo http) =
      RequestClient.classifyResponse TableInfo http := by
  rcases classifyResponse_shapes TableInfo http with ⟨m, h⟩ | ⟨s, b, h⟩ | ⟨m, h⟩ | ⟨r, h⟩ <;>
    rw [h] <;> rfl

/-- The 404 remap of the catalogs client leaves every transport-produced
result unchanged. -/
theorem catalogsNotFoundHandle_classify (R : Type) (name : String)
    (http : HttpOutcome R) :
    CatalogsClient.notFoundHandle R name (RequestClient.classifyResponse R http) =
      RequestClient.classifyResponse R http := by
  rcases classifyResponse_shapes R http with ⟨m, h⟩ | ⟨s, b, h⟩ | ⟨m, h⟩ | ⟨r, h⟩ <;>
    rw [h] <;> rfl

/-- The 404 remap of the schemas client leaves every transport-produced
result unchanged. -/
theorem schemasNotFoundHandle_classify (R : Type) (name : String)
    (http : HttpOutcome R) :
    SchemasClient.notFoundHandle R name (RequestClient.classifyResponse R http) =
      RequestClient.classifyResponse R http := by
  rcases classifyResponse_shapes R http with ⟨m, h⟩ | ⟨s, b, h⟩ | ⟨m, h⟩ | ⟨r, h⟩ <;>
    rw [h] <;> rfl

/-- The 404 remap of the tables client leaves every transport-produced
result unchanged. -/
theorem tablesNotFoundHandle_classify (R : Type) (name : String)
    (http : HttpOutcome R) :
    TablesClient.notFoundHandle R name (RequestClient.classifyResponse R http) =
      RequestClient.classifyResponse R http := by
  rcases classifyResponse_shapes R http with ⟨m, h⟩ | ⟨s, b, h⟩ | ⟨m, h⟩ | ⟨r, h⟩ <;>
    rw [h] <;> rfl

/-- No transport-produced result is a duplicate-name domain error. -/
theorem resultIsDuplicate_classify (R : Type) (http : HttpOutcome R) :
    resultIsDuplicate (RequestClient.classifyResponse R http) = false := by
  rcases classifyResponse_shapes R http with ⟨m, h⟩ | ⟨s, b, h⟩ | ⟨m, h⟩ | ⟨r, h⟩ <;>
    rw [h] <;> rfl

/-- No transport-produced result is a not-found domain error. -/
theorem resultIsNotFound_classify (R : Type) (http : HttpOutcome R) :
    resultIsNotFound (RequestClient.classifyResponse R http) = false := by
  rcases classifyResponse_shapes R http with ⟨m, h⟩ | ⟨s, b, h⟩ | ⟨m, h⟩ | ⟨r, h⟩ <;>
    rw [h] <;> rfl

/-- The catalogs delete handler applied to a transport-produced result never
yields a not-found domain error. -/
theorem catalogsDeleteHandle_classify_notFound (name : String) (http : HttpOutcome Unit) :
    resultIsNotFound
      (CatalogsClient.deleteHandle name (RequestClient.classifyResponse Unit http)) = false := by
  rcases classifyResponse_shapes Unit http with ⟨m, h⟩ | ⟨s, b, h⟩ | ⟨m, h⟩ | ⟨r, h⟩ <;>
    rw [h] <;> rfl

/-- The schemas delete handler applied to a transport-produced result never
yields a not-found domain error. -/
theorem schemasDeleteHandle_classify_notFound (name : String) (http : HttpOutcome Unit) :
    resultIsNotFound
      (SchemasClient.deleteHandle name (RequestClient.classifyResponse Unit http)) = false := by
  rcases classifyResponse_shapes Unit http with ⟨m, h⟩ | ⟨s, b, h⟩ | ⟨m, h⟩ | ⟨r, h⟩ <;>
    rw [h] <;> rfl

/-- The tables delete handler applied to a transport-produced result never
yields a not-found domain error. -/
theorem tablesDeleteHandle_classify_notFound (name : String) (http : HttpOutcome Unit) :
    resultIsNotFound
      (TablesClient.deleteHandle name (RequestClient.classifyResponse Unit http)) = false := by
  rcases classifyResponse_shapes Unit http with ⟨m, h⟩ | ⟨s, b, h⟩ | ⟨m, h⟩ | ⟨r, h⟩ <;>
    rw [h] <;> rfl

/-- C6: `SchemasClient::full_name` is exactly `catalog ++ "." ++ name` and
`TablesClient::full_name` is exactly `catalog ++ "." ++ schema ++ "." ++ name`,
with no escaping of embedded dots; in particular
`full_name("unity", "myschema") = "unity.myschema"`,
`full_name("unity", "default", "mytable") = "unity.default.mytable"`, and a
component containing a dot collides with nested plain components. -/
theorem full_name_dotted_join :
    (∀ c n, SchemasClient.full_name c n = c ++ "." ++ n)
    ∧ (∀ c s n, TablesClient.full_name c s n = c ++ "." ++ s ++ "." ++ n)
    ∧ SchemasClient.full_name "unity" "myschema" = "unity.myschema"
    ∧ TablesClient.full_name "unity" "default" "mytable" = "unity.default.mytable"
    ∧ SchemasClient.full_name "a.b" "c" = SchemasClient.full_name "a" "b.c" :=
  ⟨fun _ _ => rfl, fun _ _ _ => rfl, rfl, rfl, rfl⟩

/-- C7: when the body is present but its serialization fails, `request`
returns the `JSONFormattingError` and the outgoing-request component is
`none` — the function aborts before any network I/O. -/
theorem serialization_failure_no_network :
    ∀ (R : Type) (method : String) (route : Route) (e : SerdeJsonError)
      (http : HttpOutcome R),
      RequestClient.request R method route (some (.error e)) http =
        (none, .error (.JSONFormattingError e)) :=
  fun _ _ _ _ _ => rfl

/-- C8: the outgoing request carries exactly the headers
`Content-Type: application/json` and `Accept: application/json` when a body is
present, and no headers at all when no body is supplied. -/
theorem content_headers_exactly_with_body :
    (∀ (R : Type) (method : String) (route : Route) (b : String) (http : HttpOutcome R),
      (RequestClient.request R method route (some (.ok b)) http).1 =
        some { method := method, route := route, body := some b,
               headers := [("Content-Type", "application/json"),
                           ("Accept", "application/json")] })
    ∧ (∀ (R : Type) (method : String) (route : Route) (http : HttpOutcome R),
      (RequestClient.request R method route none http).1 =
        some { method := method, route := route, body := none, headers := [] }) :=
  ⟨fun _ _ _ _ _ => rfl, fun _ _ _ _ => rfl⟩

/-- C9: on every list URL the `page_token` and `max_results` query pairs are
present exactly when the corresponding optional argument is supplied; the
schemas list URL always starts with `catalog_name`, and the tables list URL
always starts with `catalog_name` followed by `schema_name`. -/
theorem list_query_pairs :
    (∀ pt mr, ((CatalogsClient.listRoute pt mr).query.any fun p => p.1 == "page_token") = pt.isSome)
    ∧ (∀ pt mr, ((CatalogsClient.listRoute pt mr).query.any fun p => p.1 == "max_results") = mr.isSome)
    ∧ (∀ cn pt mr, ((SchemasClient.listRoute cn pt mr).query.any fun p => p.1 == "page_token") = pt.isSome)
    ∧ (∀ cn pt mr, ((SchemasClient.listRoute cn pt mr).query.any fun p => p.1 == "max_results") = mr.isSome)
    ∧ (∀ cn pt mr, (SchemasClient.listRoute cn pt mr).query.head? = some ("catalog_name", cn))
    ∧ (∀ cn sn pt mr, ((TablesClient.listRoute cn sn pt mr).query.any fun p => p.1 == "page_token") = pt.isSome)
    ∧ (∀ cn sn pt mr, ((TablesClient.listRoute cn sn pt mr).query.any fun p => p.1 == "max_results") = mr.isSome)
    ∧ (∀ cn sn pt mr, (TablesClient.listRoute cn sn pt mr).query.take 2 =
        [("catalog_name", cn), ("schema_name", sn)]) := by
  refine ⟨?_, ?_, ?_, ?_, ?_, ?_, ?_, ?_⟩
  · intro pt mr; cases pt <;> cases mr <;> rfl
  · intro pt mr; cases pt <;> cases mr <;> rfl
  · intro cn pt mr; cases pt <;> cases mr <;> rfl
  · intro cn pt mr; cases pt <;> cases mr <;> rfl
  · intro cn pt mr; rfl
  · intro cn sn pt mr; cases pt <;> cases mr <;> rfl
  · intro cn sn pt mr; cases pt <;> cases mr <;> rfl
  · intro cn sn pt mr; rfl

/-- C10: `CatalogsClient::create` in `src/clients/catalogs.rs` panics
(modelled as `none`) when the POST fails with a `RequestError` whose reqwest
error carries no HTTP status, e.g. a connection refused before any
response. -/
theorem clients_create_panics_on_statusless_error :
    Clients.CatalogsClient.create "mycatalog" none none
      (.ok "serialized-create-catalog") (.sendErr "connection refused") = none := rfl

/-- C1 (code bug): a POST that comes back with HTTP 409 produces
`RequestErrorWithResponse` at the transport, but the create methods only remap
a `RequestError` (whose status is always `none`), so the 409 is NOT remapped
to the duplicate-name domain error — in fact no create call can ever return a
duplicate-name error through `RequestClient::request`. -/
theorem create_409_conflict_never_yields_duplicate_error :
    (CatalogsClient.create { name := "mycatalog", comment := none, properties := none }
        (.ok "serialized-create-catalog")
        (.resp 409 (.ok "ALREADY_EXISTS") (.error "not json")) =
      .error (.RequestErrorWithResponse (statusError 409) "ALREADY_EXISTS"))
    ∧ (∀ props ser http, resultIsDuplicate (CatalogsClient.create props ser http) = false)
    ∧ (∀ props ser http, resultIsDuplicate (SchemasClient.create props ser http) = false)
    ∧ (∀ props ser http, resultIsDuplicate (TablesClient.create props ser http) = false) := by
  refine ⟨rfl, ?_, ?_, ?_⟩
  · intro props ser http
    cases ser with
    | error e => rfl
    | ok b =>
      show resultIsDuplicate
        (CatalogsClient.createHandle props (RequestClient.classifyResponse CatalogInfo http)) = false
      rw [catalogsCreateHandle_classify]
      exact resultIsDuplicate_classify CatalogInfo http
  · intro props ser http
    cases ser with
    | error e => rfl
    | ok b =>
      show resultIsDuplicate
        (SchemasClient.createHandle props (RequestClient.classifyResponse SchemaInfo http)) = false
      rw [schemasCreateHandle_classify]
      exact resultIsDuplicate_classify SchemaInfo http
  · intro props ser http
    cases ser with
    | error e => rfl
    | ok b =>
      show resultIsDuplicate
        (TablesClient.createHandle props (RequestClient.classifyResponse TableInfo http)) = false
      rw [tablesCreateHandle_classify]
      exact resultIsDuplicate_classify TableInfo http

/-- C2 (code bug): a GET/PATCH/DELETE that comes back with HTTP 404 produces
`RequestErrorWithResponse` at the transport, but the resource clients only
remap a `RequestError` (whose status is always `none`), so the 404 is NOT
remapped to the resource-specific not-found domain error — in fact no
get/update/delete call can ever return a not-found error through
`RequestClient::request`. -/
theorem notfound_404_never_yields_notfound_error :
    (CatalogsClient.get "mycatalog" (.resp 404 (.ok "NOT_FOUND") (.error "not json")) =
      .error (.RequestErrorWithResponse (statusError 404) "NOT_FOUND"))
    ∧ (CatalogsClient.delete "mycatalog" false (.resp 404 (.ok "NOT_FOUND") (.error "not json")) =
      .error (.RequestErrorWithResponse (statusError 404) "NOT_FOUND"))
    ∧ (∀ name http, resultIsNotFound (CatalogsClient.get name http) = false)
    ∧ (∀ name props ser http, resultIsNotFound (CatalogsClient.update name props ser http) = false)
    ∧ (∀ name force http, resultIsNotFound (CatalogsClient.delete name force http) = false)
    ∧ (∀ fn http, resultIsNotFound (SchemasClient.get fn http) = false)
    ∧ (∀ fn props ser http, resultIsNotFound (SchemasClient.update fn props ser http) = false)
    ∧ (∀ fn force http, resultIsNotFound (SchemasClient.delete fn force http) = false)
    ∧ (∀ fn http, resultIsNotFound (TablesClient.get fn http) = false)
    ∧ (∀ fn http, resultIsNotFound (TablesClient.delete fn http) = false) := by
  refine ⟨rfl, rfl, ?_, ?_, ?_, ?_, ?_, ?_, ?_, ?_⟩
  · intro name http
    show resultIsNotFound
      (CatalogsClient.notFoundHandle CatalogInfo name
        (RequestClient.classifyResponse CatalogInfo http)) = false
    rw [catalogsNotFoundHandle_classify]
    exact resultIsNotFound_classify CatalogInfo http
  · intro name props ser http
    cases ser with
    | error e => rfl
    | ok b =>
      show resultIsNotFound
        (CatalogsClient.notFoundHandle CatalogInfo name
          (RequestClient.classifyResponse CatalogInfo http)) = false
      rw [catalogsNotFoundHandle_classify]
      exact resultIsNotFound_classify CatalogInfo http
  · intro name force http
    exact catalogsDeleteHandle_classify_notFound name http
  · intro fn http
    show resultIsNotFound
      (SchemasClient.notFoundHandle SchemaInfo fn
        (RequestClient.classifyResponse SchemaInfo http)) = false
    rw [schemasNotFoundHandle_classify]
    exact resultIsNotFound_classify SchemaInfo http
  · intro fn props ser http
    cases ser with
    | error e => rfl
    | ok b =>
      show resultIsNotFound
        (SchemasClient.notFoundHandle SchemaInfo fn
          (RequestClient.classifyResponse SchemaInfo http)) = false
      rw [schemasNotFoundHandle_classify]
      exact resultIsNotFound_classify SchemaInfo http
  · intro fn force http
    exact schemasDeleteHandle_classify_notFound fn http
  · intro fn http
    show resultIsNotFound
      (TablesClient.notFoundHandle TableInfo fn
        (RequestClient.classifyResponse TableInfo http)) = false
    rw [tablesNotFoundHandle_classify]
    exact resultIsNotFound_classify TableInfo http
  · intro fn http
    exact tablesDeleteHandle_classify_notFound fn http

/-- C3: a delete whose HTTP status is in the 2xx range but whose body fails to
decode returns `Ok(())` on all three clients, while list/create/get/update
propagate the resulting `JSONParsingError` to the caller unchanged. -/
theorem delete_unit_success_on_unparseable_body :
    (∀ (name : String) (force : Bool) (s : Nat) (t : Except String String) (m : String),
      200 ≤ s → s ≤ 299 →
      CatalogsClient.delete name force (.resp s t (.error m)) = .ok ())
    ∧ (∀ (fn : String) (force : Bool) (s : Nat) (t : Except String String) (m : String),
      200 ≤ s → s ≤ 299 →
      SchemasClient.delete fn force (.resp s t (.error m)) = .ok ())
    ∧ (∀ (fn : String) (s : Nat) (t : Except String String) (m : String),
      200 ≤ s → s ≤ 299 →
      TablesClient.delete fn (.resp s t (.error m)) = .ok ())
    ∧ (∀ pt mr (s : Nat) t (m : String), 200 ≤ s → s ≤ 299 →
      CatalogsClient.list pt mr (.resp s t (.error m)) =
        .error (.JSONParsingError { msg := m, status := none }))
    ∧ (∀ props (b : String) (s : Nat) t (m : String), 200 ≤ s → s ≤ 299 →
      CatalogsClient.create props (.ok b) (.resp s t (.error m)) =
        .error (.JSONParsingError { msg := m, status := none }))
    ∧ (∀ (name : String) (s : Nat) t (m : String), 200 ≤ s → s ≤ 299 →
      CatalogsClient.get name (.resp s t (.error m)) =
        .error (.JSONParsingError { msg := m, status := none }))
    ∧ (∀ (name : String) props (b : String) (s : Nat) t (m : String), 200 ≤ s → s ≤ 299 →
      CatalogsClient.update name props (.ok b) (.resp s t (.error m)) =
        .error (.JSONParsingError { msg := m, status := none }))
    ∧ (∀ (cn : String) pt mr (s : Nat) t (m : String), 200 ≤ s → s ≤ 299 →
      SchemasClient.list cn pt mr (.resp s t (.error m)) =
        .error (.JSONParsingError { msg := m, status := none }))
    ∧ (∀ props (b : String) (s : Nat) t (m : String), 200 ≤ s → s ≤ 299 →
      SchemasClient.create props (.ok b) (.resp s t (.error m)) =
        .error (.JSONParsingError { msg := m, status := none }))
    ∧ (∀ (fn : String) (s : Nat) t (m : String), 200 ≤ s → s ≤ 299 →
      SchemasClient.get fn (.resp s t (.error m)) =
        .error (.JSONParsingError { msg := m, status := none }))
    ∧ (∀ (fn : String) props (b : String) (s : Nat) t (m : String), 200 ≤ s → s ≤ 299 →
      SchemasClient.update fn props (.ok b) (.resp s t (.error m)) =
        .error (.JSONParsingError { msg := m, status := none }))
    ∧ (∀ (cn sn : String) pt mr (s : Nat) t (m : String), 200 ≤ s → s ≤ 299 →
      TablesClient.list cn sn pt mr (.resp s t (.error m)) =
        .error (.JSONParsingError { msg := m, status := none }))
    ∧ (∀ props (b : String) (s : Nat) t (m : String), 200 ≤ s → s ≤ 299 →
      TablesClient.create props (.ok b) (.resp s t (.error m)) =
        .error (.JSONParsingError { msg := m, status := none }))
    ∧ (∀ (fn : String) (s : Nat) t (m : String), 200 ≤ s → s ≤ 299 →
      TablesClient.get fn (.resp s t (.error m)) =
        .error (.JSONParsingError { msg := m, status := none })) := by
  have hns : ∀ s : Nat, 200 ≤ s → s ≤ 299 → ¬(400 ≤ s ∧ s ≤ 599) := by
    intro s h1 h2; omega
  have hclass : ∀ (R : Type) (s : Nat) (t : Except String String) (m : String),
      200 ≤ s → s ≤ 299 →
      RequestClient.classifyResponse R (.resp s t (.error m)) =
        .error (.JSONParsingError { msg := m, status := none }) := by
    intro R s t m h1 h2
    simp only [RequestClient.classifyResponse, if_neg (hns s h1 h2)]
  refine ⟨?_, ?_, ?_, ?_, ?_, ?_, ?_, ?_, ?_, ?_, ?_, ?_, ?_, ?_⟩
  · intro name force s t m h1 h2
    show CatalogsClient.deleteHandle name
      (RequestClient.classifyResponse Unit (.resp s t (.error m))) = .ok ()
    rw [hclass Unit s t m h1 h2]; rfl
  · intro fn force s t m h1 h2
    show SchemasClient.deleteHandle fn
      (RequestClient.classifyResponse Unit (.resp s t (.error m))) = .ok ()
    rw [hclass Unit s t m h1 h2]; rfl
  · intro fn s t m h1 h2
    show TablesClient.deleteHandle fn
      (RequestClient.classifyResponse Unit (.resp s t (.error m))) = .ok ()
    rw [hclass Unit s t m h1 h2]; rfl
  · intro pt mr s t m h1 h2
    exact hclass ListCatalogResponse s t m h1 h2
  · intro props b s t m h1 h2
    show CatalogsClient.createHandle props
      (RequestClient.classifyResponse CatalogInfo (.resp s t (.error m))) = _
    rw [hclass CatalogInfo s t m h1 h2]; rfl
  · intro name s t m h1 h2
    show CatalogsClient.notFoundHandle CatalogInfo name
      (RequestClient.classifyResponse CatalogInfo (.resp s t (.error m))) = _
    rw [hclass CatalogInfo s t m h1 h2]; rfl
  · intro name props b s t m h1 h2
    show CatalogsClient.notFoundHandle CatalogInfo name
      (RequestClient.classifyResponse CatalogInfo (.resp s t (.error m))) = _
    rw [hclass CatalogInfo s t m h1 h2]; rfl
  · intro cn pt mr s t m h1 h2
    exact hclass ListSchemasResponse s t m h1 h2
  · intro props b s t m h1 h2
    show SchemasClient.createHandle props
      (RequestClient.classifyResponse SchemaInfo (.resp s t (.error m))) = _
    rw [hclass SchemaInfo s t m h1 h2]; rfl
  · intro fn s t m h1 h2
    show SchemasClient.notFoundHandle SchemaInfo fn
      (RequestClient.classifyResponse SchemaInfo (.resp s t (.error m))) = _
    rw [hclass SchemaInfo s t m h1 h2]; rfl
  · intro fn props b s t m h1 h2
    show SchemasClient.notFoundHandle SchemaInfo fn
      (RequestClient.classifyResponse SchemaInfo (.resp s t (.error m))) = _
    rw [hclass SchemaInfo s t m h1 h2]; rfl
  · intro cn sn pt mr s t m h1 h2
    exact hclass ListTablesResponse s t m h1 h2
  · intro props b s t m h1 h2
    show TablesClient.createHandle props
      (RequestClient.classifyResponse TableInfo (.resp s t (.error m))) = _
    rw [hclass TableInfo s t m h1 h2]; rfl
  · intro fn s t m h1 h2
    show TablesClient.notFoundHandle TableInfo fn
      (RequestClient.classifyResponse TableInfo (.resp s t (.error m))) = _
    rw [hclass TableInfo s t m h1 h2]; rfl

/-- Witness for C3 at concrete inputs: a 200 delete with an unparseable body on
each client returns unit success, and a 200 get with an unparseable body on the
catalogs client returns the JSON-parsing error. -/
theorem delete_unit_success_on_unparseable_body_witness :
    CatalogsClient.delete "mycatalog" false (.resp 200 (.ok "200 OK") (.error "not json")) = .ok ()
    ∧ SchemasClient.delete "unity.myschema" false
        (.resp 200 (.ok "200 OK") (.error "not json")) = .ok ()
    ∧ TablesClient.delete "unity.default.mytable"
        (.resp 200 (.ok "200 OK") (.error "not json")) = .ok ()
    ∧ CatalogsClient.get "mycatalog" (.resp 200 (.ok "200 OK") (.error "not json")) =
        .error (.JSONParsingError { msg := "not json", status := none }) :=
  ⟨delete_unit_success_on_unparseable_body.1 "mycatalog" false 200 (.ok "200 OK") "not json"
      (by decide) (by decide),
   delete_unit_success_on_unparseable_body.2.1 "unity.myschema" false 200 (.ok "200 OK") "not json"
      (by decide) (by decide),
   delete_unit_success_on_unparseable_body.2.2.1 "unity.default.mytable" 200 (.ok "200 OK")
      "not json" (by decide) (by decide),
   delete_unit_success_on_unparseable_body.2.2.2.2.2.1 "mycatalog" 200 (.ok "200 OK") "not json"
      (by decide) (by decide)⟩

/-- C4 counterexample: a response with status 304 — outside the 2xx success
range — does NOT fail with `RequestErrorWithResponse`; the code only treats
client/server error statuses (400..=599) as failures (`error_for_status_ref`),
so a 304 proceeds to JSON decoding and surfaces a `JSONParsingError`
instead. -/
theorem request_non2xx_counterexample_304 :
    ((RequestClient.request CatalogInfo "GET"
        { path := CatalogsClient.itemPath "mycatalog", query := [] } none
        (.resp 304 (.ok "not modified") (.error "empty body"))).2 =
      .error (.JSONParsingError { msg := "empty body", status := none }))
    ∧ resultIsRequestErrorWithResponse
        ((RequestClient.request CatalogInfo "GET"
          { path := CatalogsClient.itemPath "mycatalog", query := [] } none
          (.resp 304 (.ok "not modified") (.error "empty body"))).2) = false :=
  ⟨rfl, rfl⟩

/-- C4 amended: for a received response, `request` fails with
`RequestErrorWithResponse` (carrying the status error and the body text)
exactly when the status is a client or server error (400..=599); every other
status — the 2xx range but also 1xx and 3xx — proceeds to decoding, where a
decode failure yields the distinct `JSONParsingError` variant. -/
theorem request_status_classification :
    ∀ (R : Type) (method : String) (route : Route) (b : Option String)
      (s : Nat) (bodyText : String) (jsonRes : Except String R),
      (RequestClient.request R method route (b.map Except.ok) (.resp s (.ok bodyText) jsonRes)).2 =
        if 400 ≤ s ∧ s ≤ 599 then
          .error (.RequestErrorWithResponse (statusError s) bodyText)
        else
          match jsonRes with
          | .error m => .error (.JSONParsingError { msg := m, status := none })
          | .ok r => .ok r := by
  intro R method route b s bodyText jsonRes
  have hshow : (RequestClient.request R method route (b.map Except.ok)
      (.resp s (.ok bodyText) jsonRes)).2 =
      RequestClient.classifyResponse R (.resp s (.ok bodyText) jsonRes) := by
    cases b <;> rfl
  rw [hshow]
  by_cases h : 400 ≤ s ∧ s ≤ 599
  · simp only [RequestClient.classifyResponse, if_pos h]
  · simp only [RequestClient.classifyResponse, if_neg h]

/-- C5 counterexample: when the tables create remap fires, the
`DuplicateTableName` error carries only the bare table name `"mytable"`, not
the fully-qualified `"unity.default.mytable"` that `TablesClient::full_name`
would produce. -/
theorem tables_duplicate_bare_name_counterexample :
    TablesClient.createHandle
      { name := "mytable", catalog_name := "unity", schema_name := "default",
        table_type := .EXTERNAL, data_source_format := .DELTA, columns := [],
        storage_location := none, comment := none, properties := none }
      (.error (.RequestError { msg := "conflict", status := some 409 })) =
      .error (.DuplicateTableName "mytable")
    ∧ ("mytable" == TablesClient.full_name "unity" "default" "mytable") = false :=
  ⟨rfl, rfl⟩

/-- C5 amended: the string inside a duplicate-name error is the flat `name`
for catalogs, the dotted `full_name(catalog_name, name)` for schemas, but only
the bare `name` (not the dotted full name) for tables. -/
theorem duplicate_error_payload_shapes :
    (∀ (props : CreateCatalog) (m : String),
      CatalogsClient.createHandle props
        (.error (.RequestError { msg := m, status := some 409 })) =
        .error (.DuplicateCatalogName props.name))
    ∧ (∀ (props : CreateSchema) (m : String),
      SchemasClient.createHandle props
        (.error (.RequestError { msg := m, status := some 409 })) =
        .error (.DuplicateSchemaName (SchemasClient.full_name props.catalog_name props.name)))
    ∧ (∀ (props : CreateTable) (m : String),
      TablesClient.createHandle props
        (.error (.RequestError { msg := m, status := some 409 })) =
        .error (.DuplicateTableName props.name)) :=
  ⟨fun _ _ => rfl, fun _ _ => rfl, fun _ _ => rfl⟩
